import Mathlib

/-!
Shallow embedding of `src/app.py` — a TradingView → BloFin webhook relay.

The Python program is embedded as executable Lean functions:
  * JSON values are the mutually inductive `Json` / `JsonArr` / `JsonObj`
    (objects are ordered key/value sequences, as Python dicts preserve
    insertion order; numbers are modelled as integers — no claim depends on
    float formatting);
  * `dumps` is `json.dumps(·, separators=(",", ":"))` (compact, insertion
    order preserved, `ensure_ascii=True` escaping);
  * `sha256` / `hmacSha256` implement FIPS 180-4 SHA-256 and RFC 2104 HMAC
    over byte lists (`List Nat`, each entry < 256);
  * `sign_request`, `place_blofin_order`, `send_slack_message`,
    `tradingview_webhook` mirror the Python functions of the same names;
    the current time, the fresh nonce, and the network are passed in as
    parameters/oracles (the source obtains them from `time`, `uuid` and
    `requests`).
-/

/-! ## JSON data model -/

mutual

inductive Json where
  | null : Json
  | bool (b : Bool) : Json
  | num (n : Int) : Json
  | str (s : String) : Json
  | arr (items : JsonArr) : Json
  | obj (entries : JsonObj) : Json
  deriving DecidableEq

inductive JsonArr where
  | nil : JsonArr
  | cons (hd : Json) (tl : JsonArr) : JsonArr
  deriving DecidableEq

inductive JsonObj where
  | nil : JsonObj
  | cons (key : String) (val : Json) (tl : JsonObj) : JsonObj
  deriving DecidableEq

end

/-- Literal `{` (written via hex escape). -/
def lbrace : String := "\x7b"

/-- Literal `}` (written via hex escape). -/
def rbrace : String := "\x7d"

/-- Python truthiness (`bool(x)`) for JSON-shaped values:
`None`, `False`, `0`, `""`, `[]`, and the empty dict are falsy. -/
def Json.truthy : Json → Bool
  | .null => false
  | .bool b => b
  | .num n => n != 0
  | .str s => !(s == "")
  | .arr .nil => false
  | .arr (.cons _ _) => true
  | .obj .nil => false
  | .obj (.cons _ _ _) => true

/-- First binding of `key` in an object, if any (Python dicts have unique
keys, so first = only). -/
def JsonObj.get? : JsonObj → String → Option Json
  | .nil, _ => none
  | .cons k v tl, key => if k == key then some v else tl.get? key

/-- Python `d.get(key, default)` on a dict. -/
def dictGetD (o : JsonObj) (key : String) (default : Json) : Json :=
  (o.get? key).getD default

/-- Keys of an object, in order. -/
def JsonObj.keys : JsonObj → List String
  | .nil => []
  | .cons k _ tl => k :: tl.keys

/-- The entries of an object as an association list. -/
def JsonObj.toList : JsonObj → List (String × Json)
  | .nil => []
  | .cons k v tl => (k, v) :: tl.toList

/-! ## `json.dumps` (compact form used by `sign_request`) -/

/-- Lowercase hex digit. -/
def hexDigit (n : Nat) : Char :=
  Char.ofNat (if n < 10 then 48 + n else 87 + n)

/-- Four lowercase hex digits (for `\uXXXX` escapes). -/
def hex4 (n : Nat) : String :=
  String.mk [hexDigit (n / 4096 % 16), hexDigit (n / 256 % 16),
             hexDigit (n / 16 % 16), hexDigit (n % 16)]

/-- CPython `json` escaping of one character with `ensure_ascii=True`:
quote, backslash and control characters use the short escapes, every
character outside `0x20`–`0x7e` becomes `\uXXXX` (surrogate pairs above
`0xffff`). -/
def escChar (c : Char) : String :=
  let n := c.toNat
  if n = 34 then "\\\""
  else if n = 92 then "\\\\"
  else if n = 10 then "\\n"
  else if n = 13 then "\\r"
  else if n = 9 then "\\t"
  else if n = 8 then "\\b"
  else if n = 12 then "\\f"
  else if n < 32 then "\\u" ++ hex4 n
  else if n < 127 then String.mk [c]
  else if n < 65536 then "\\u" ++ hex4 n
  else
    let m := n - 65536
    "\\u" ++ hex4 (55296 + m / 1024) ++ "\\u" ++ hex4 (56320 + m % 1024)

/-- JSON string literal serialization (`ensure_ascii=True`). -/
def serStr (s : String) : String :=
  "\"" ++ s.data.foldr (fun c acc => escChar c ++ acc) "" ++ "\""

mutual

/-- `json.dumps(v, separators=(",", ":"))`: compact JSON, object keys in
insertion order (`sort_keys` is not passed, so no reordering happens). -/
def dumps : Json → String
  | .null => "null"
  | .bool true => "true"
  | .bool false => "false"
  | .num n => toString n
  | .str s => serStr s
  | .arr a => "[" ++ dumpsArr a ++ "]"
  | .obj o => lbrace ++ dumpsObj o ++ rbrace

/-- Elements of an array, comma-separated. -/
def dumpsArr : JsonArr → String
  | .nil => ""
  | .cons x .nil => dumps x
  | .cons x (.cons y tl) => dumps x ++ "," ++ dumpsArr (.cons y tl)

/-- Entries of an object, `"key":value`, comma-separated, insertion order. -/
def dumpsObj : JsonObj → String
  | .nil => ""
  | .cons k v .nil => serStr k ++ ":" ++ dumps v
  | .cons k v (.cons k2 v2 tl) =>
      serStr k ++ ":" ++ dumps v ++ "," ++ dumpsObj (.cons k2 v2 tl)

end

/-! ## Python `str()` / `repr()` of JSON-shaped values

`str()` of a string is the string itself; everything else falls back to
`repr()`: `None`/`True`/`False`, plain integers, single-quoted strings
(modelled for strings without quotes, backslashes or control characters —
the only ones the program produces), `[a, b]` lists and `{'k': v}` dicts. -/

mutual

/-- Python `repr(v)`. -/
def pyRepr : Json → String
  | .null => "None"
  | .bool true => "True"
  | .bool false => "False"
  | .num n => toString n
  | .str s => "'" ++ s ++ "'"
  | .arr a => "[" ++ pyReprArr a ++ "]"
  | .obj o => lbrace ++ pyReprObj o ++ rbrace

/-- List elements for `repr`, separated by `", "`. -/
def pyReprArr : JsonArr → String
  | .nil => ""
  | .cons x .nil => pyRepr x
  | .cons x (.cons y tl) => pyRepr x ++ ", " ++ pyReprArr (.cons y tl)

/-- Dict entries for `repr`: `'key': value`, separated by `", "`. -/
def pyReprObj : JsonObj → String
  | .nil => ""
  | .cons k v .nil => "'" ++ k ++ "': " ++ pyRepr v
  | .cons k v (.cons k2 v2 tl) =>
      "'" ++ k ++ "': " ++ pyRepr v ++ ", " ++ pyReprObj (.cons k2 v2 tl)

end

/-- Python `str(v)`. -/
def pyStr : Json → String
  | .str s => s
  | v => pyRepr v

/-! ## Bytes, UTF-8, hex, base64 -/

/-- UTF-8 encoding of one code point. -/
def utf8Char (c : Char) : List Nat :=
  let n := c.toNat
  if n < 128 then [n]
  else if n < 2048 then [192 + n / 64, 128 + n % 64]
  else if n < 65536 then [224 + n / 4096, 128 + n / 64 % 64, 128 + n % 64]
  else [240 + n / 262144, 128 + n / 4096 % 64, 128 + n / 64 % 64, 128 + n % 64]

/-- `s.encode("utf-8")` as a byte list. -/
def strBytes (s : String) : List Nat :=
  s.data.foldr (fun c acc => utf8Char c ++ acc) []

/-- `.hexdigest()`: lowercase hex rendering of a byte list. -/
def hexdigest (bs : List Nat) : String :=
  String.mk (bs.foldr (fun b acc => hexDigit (b / 16 % 16) :: hexDigit (b % 16) :: acc) [])

/-- Standard base64 alphabet. -/
def b64char (n : Nat) : Char :=
  "ABCDEFGHIJKLMNOPQRSTUVWXYZabcdefghijklmnopqrstuvwxyz0123456789+/".data.getD n 'A'

/-- `base64.b64encode` of a byte list (with `=` padding). -/
def base64encode : List Nat → String
  | a :: b :: c :: rest =>
      String.mk [b64char (a / 4), b64char (a % 4 * 16 + b / 16),
                 b64char (b % 16 * 4 + c / 64), b64char (c % 64)] ++ base64encode rest
  | [a, b] =>
      String.mk [b64char (a / 4), b64char (a % 4 * 16 + b / 16),
                 b64char (b % 16 * 4)] ++ "="
  | [a] =>
      String.mk [b64char (a / 4), b64char (a % 4 * 16)] ++ "=="
  | [] => ""

/-! ## SHA-256 (FIPS 180-4) and HMAC (RFC 2104) -/

/-- `2^32`. -/
def w32 : Nat := 4294967296

/-- Right rotation of a 32-bit word. -/
def rotr (n x : Nat) : Nat :=
  (x / 2 ^ n + x % 2 ^ n * 2 ^ (32 - n)) % w32

/-- σ₀ message-schedule function. -/
def ssig0 (x : Nat) : Nat := rotr 7 x ^^^ rotr 18 x ^^^ x / 8

/-- σ₁ message-schedule function. -/
def ssig1 (x : Nat) : Nat := rotr 17 x ^^^ rotr 19 x ^^^ x / 1024

/-- Σ₀ compression function. -/
def bsig0 (x : Nat) : Nat := rotr 2 x ^^^ rotr 13 x ^^^ rotr 22 x

/-- Σ₁ compression function. -/
def bsig1 (x : Nat) : Nat := rotr 6 x ^^^ rotr 11 x ^^^ rotr 25 x

/-- `Ch(x,y,z)`; `¬x` on 32 bits is `2^32 - 1 - x`. -/
def chF (x y z : Nat) : Nat := x &&& y ^^^ (w32 - 1 - x % w32) &&& z

/-- `Maj(x,y,z)`. -/
def majF (x y z : Nat) : Nat := x &&& y ^^^ x &&& z ^^^ y &&& z

/-- SHA-256 round constants `K`, as decimal 32-bit words. -/
def shaK : List Nat :=
  [1116352408, 1899447441, 3049323471, 3921009573, 961987163,
   1508970993, 2453635748, 2870763221, 3624381080, 310598401,
   607225278, 1426881987, 1925078388, 2162078206, 2614888103,
   3248222580, 3835390401, 4022224774, 264347078, 604807628,
   770255983, 1249150122, 1555081692, 1996064986, 2554220882,
   2821834349, 2952996808, 3210313671, 3336571891, 3584528711,
   113926993, 338241895, 666307205, 773529912, 1294757372,
   1396182291, 1695183700, 1986661051, 2177026350, 2456956037,
   2730485921, 2820302411, 3259730800, 3345764771, 3516065817,
   3600352804, 4094571909, 275423344, 430227734, 506948616,
   659060556, 883997877, 958139571, 1322822218, 1537002063,
   1747873779, 1955562222, 2024104815, 2227730452, 2361852424,
   2428436474, 2756734187, 3204031479, 3329325298]

/-- SHA-256 initial hash state, as decimal 32-bit words. -/
def shaH0 : List Nat :=
  [1779033703, 3144134277, 1013904242, 2773480762,
   1359893119, 2600822924, 528734635, 1541459225]

/-- Big-endian 32-bit words from a byte list. -/
def toWords : List Nat → List Nat
  | b0 :: b1 :: b2 :: b3 :: rest =>
      (b0 * 16777216 + b1 * 65536 + b2 * 256 + b3) :: toWords rest
  | _ => []

/-- Extend the (reversed, most-recent-first) message schedule by `n` words. -/
def extendW : Nat → List Nat → List Nat
  | 0, ws => ws
  | n + 1, ws =>
      let nw := (ssig1 (ws.getD 1 0) + ws.getD 6 0 + ssig0 (ws.getD 14 0)
                 + ws.getD 15 0) % w32
      extendW n (nw :: ws)

/-- State of one compression round: the eight working variables. -/
structure Sha8 where
  a : Nat
  b : Nat
  c : Nat
  d : Nat
  e : Nat
  f : Nat
  g : Nat
  h : Nat

/-- One SHA-256 round, consuming one `(Kₜ, Wₜ)` pair. -/
def roundStep (st : Sha8) (kw : Nat × Nat) : Sha8 :=
  let t1 := (st.h + bsig1 st.e + chF st.e st.f st.g + kw.1 + kw.2) % w32
  let t2 := (bsig0 st.a + majF st.a st.b st.c) % w32
  ⟨(t1 + t2) % w32, st.a, st.b, st.c, (st.d + t1) % w32, st.e, st.f, st.g⟩

/-- Compress one 64-byte block into the 8-word hash state. -/
def compressBlock (hs : List Nat) (block : List Nat) : List Nat :=
  let ws := ((extendW 48 (toWords block).reverse).reverse)
  let st0 : Sha8 := ⟨hs.getD 0 0, hs.getD 1 0, hs.getD 2 0, hs.getD 3 0,
                     hs.getD 4 0, hs.getD 5 0, hs.getD 6 0, hs.getD 7 0⟩
  let st := (shaK.zip ws).foldl roundStep st0
  [(hs.getD 0 0 + st.a) % w32, (hs.getD 1 0 + st.b) % w32,
   (hs.getD 2 0 + st.c) % w32, (hs.getD 3 0 + st.d) % w32,
   (hs.getD 4 0 + st.e) % w32, (hs.getD 5 0 + st.f) % w32,
   (hs.getD 6 0 + st.g) % w32, (hs.getD 7 0 + st.h) % w32]

/-- Fold the compression over `n` 64-byte blocks. -/
def sha256blocks : Nat → List Nat → List Nat → List Nat
  | 0, _, hs => hs
  | n + 1, msg, hs => sha256blocks n (msg.drop 64) (compressBlock hs (msg.take 64))

/-- Big-endian 8-byte rendering of the bit length. -/
def lenBytes (n : Nat) : List Nat :=
  [n / 72057594037927936 % 256, n / 281474976710656 % 256,
   n / 1099511627776 % 256, n / 4294967296 % 256,
   n / 16777216 % 256, n / 65536 % 256, n / 256 % 256, n % 256]

/-- SHA-256 padding: `0x80`, zeros to 56 mod 64, 8-byte bit length. -/
def sha256pad (msg : List Nat) : List Nat :=
  let l := msg.length
  msg ++ 128 :: List.replicate ((119 - l % 64) % 64) 0 ++ lenBytes (l * 8)

/-- SHA-256 digest (32 bytes) of a byte list. -/
def sha256 (msg : List Nat) : List Nat :=
  let p := sha256pad msg
  let hs := sha256blocks (p.length / 64) p shaH0
  hs.foldr (fun w acc =>
    w / 16777216 % 256 :: w / 65536 % 256 :: w / 256 % 256 :: w % 256 :: acc) []

/-- `hmac.new(key, msg, hashlib.sha256).digest()`. -/
def hmacSha256 (key msg : List Nat) : List Nat :=
  let k0 := if key.length > 64 then sha256 key else key
  let k := k0 ++ List.replicate (64 - k0.length) 0
  let ipad := k.map (fun b => b ^^^ 54)
  let opad := k.map (fun b => b ^^^ 92)
  sha256 (opad ++ sha256 (ipad ++ msg))

/-! ## `sign_request` (src/app.py lines 63–89)

The source draws `timestamp` from the clock and `nonce` from `uuid.uuid4()`;
both are parameters here (the spec notes the function is deterministic given
a fixed clock/nonce source). `method.upper()` is modelled for ASCII method
names, which is what `str.upper` does on them. -/

/-- `method.upper()` (ASCII). -/
def upperAscii (s : String) : String :=
  String.mk (s.data.map Char.toUpper)

/-- The prehash string: `path + method.upper() + timestamp + nonce`, then
`+ json.dumps(body, separators=(",", ":"))` only when `body` is truthy
(`if body:` — so a missing body *and* an empty dict contribute nothing). -/
def canonicalMessage (method path : String) (body : Option JsonObj)
    (timestamp nonce : String) : String :=
  let m := upperAscii method
  let base := path ++ m ++ timestamp ++ nonce
  match body with
  | some o => if Json.truthy (.obj o) then base ++ dumps (.obj o) else base
  | none => base

/-- `Base64( HMAC_SHA256(secret, message).hexdigest().encode("utf-8") )` —
the digest is hex-rendered first and the *hex string's* bytes are
base64-encoded. -/
def signOfMessage (secret message : String) : String :=
  base64encode (strBytes (hexdigest (hmacSha256 (strBytes secret) (strBytes message))))

/-- `sign_request(secret, method, path, body)` at a given timestamp/nonce:
returns `(signature, timestamp, nonce)`. -/
def sign_request (secret method path : String) (body : Option JsonObj)
    (timestamp nonce : String) : String × String × String :=
  (signOfMessage secret (canonicalMessage method path body timestamp nonce),
   timestamp, nonce)

/-! ## `place_blofin_order` (src/app.py lines 92–139) -/

/-- Process-wide configuration read from the environment at startup.
`os.environ.get` yields `none` for an unset variable;
`TRADINGVIEW_WEBHOOK_SECRET` defaults to `""`. -/
structure Config where
  blofinApiKey : Option String
  blofinApiSecret : Option String
  blofinApiPassphrase : Option String
  tradingviewWebhookSecret : String
  slackWebhookUrl : Option String

/-- `BLOFIN_BASE_URL`. -/
def BLOFIN_BASE_URL : String := "https://openapi.blofin.com"

/-- Python truthiness of an optional env string: unset or empty is falsy. -/
def credTruthy : Option String → Bool
  | none => false
  | some s => !(s == "")

/-- `BLOFIN_API_KEY and BLOFIN_API_SECRET and BLOFIN_API_PASSPHRASE`. -/
def credsTruthy (cfg : Config) : Bool :=
  credTruthy cfg.blofinApiKey && credTruthy cfg.blofinApiSecret
    && credTruthy cfg.blofinApiPassphrase

/-- An HTTP response from the exchange, as `requests` exposes it:
status code, the JSON parse of the body (`none` when `resp.json()` raises),
and the raw text. -/
structure HttpResp where
  status : Nat
  jsonBody : Option Json
  text : String
  deriving DecidableEq

/-- The outbound `requests.post(url, headers=..., json=body, timeout=10)`
call that `place_blofin_order` issues. -/
structure ExchangeCall where
  url : String
  headers : List (String × String)
  body : JsonObj

/-- `requests.Response.ok`: true exactly when `status_code < 400`. -/
def respOk (status : Nat) : Bool := status < 400

/-- `data = resp.json()` with the `except` fallback
`data = {"raw_text": resp.text}`. -/
def responseData (resp : HttpResp) : Json :=
  match resp.jsonBody with
  | some d => d
  | none => .obj (.cons "raw_text" (.str resp.text) .nil)

/-- Result of `place_blofin_order`: the returned data or the raised
exception's message, plus the HTTP call it issued (if it got that far). -/
structure OrderOut where
  result : Except String Json
  exchangeCall : Option ExchangeCall

/-- The order body: exactly `instId`, `marginMode`, `side`, `orderType`,
`size` (the latter via `str(size)`), in source order; no `price` key —
the function has no price parameter. -/
def orderBody (inst_id side size : Json) (order_type margin_mode : String) : JsonObj :=
  .cons "instId" inst_id
    (.cons "marginMode" (.str margin_mode)
      (.cons "side" side
        (.cons "orderType" (.str order_type)
          (.cons "size" (.str (pyStr size)) .nil))))

/-- `place_blofin_order(inst_id, side, size, order_type, margin_mode)`.
The network is the oracle `exch` (an `Except`-error models a raised
`requests` exception, e.g. a timeout); timestamp and nonce feed
`sign_request`. Raised exceptions are `Except.error` with the message
`str(e)` would produce. -/
def place_blofin_order (cfg : Config) (exch : ExchangeCall → Except String HttpResp)
    (timestamp nonce : String) (inst_id side size : Json)
    (order_type margin_mode : String) : OrderOut :=
  if credsTruthy cfg then
    let path := "/api/v1/trade/order"
    let url := BLOFIN_BASE_URL ++ path
    let body := orderBody inst_id side size order_type margin_mode
    let sg := sign_request (cfg.blofinApiSecret.getD "") "POST" path (some body)
                timestamp nonce
    let headers := [("ACCESS-KEY", cfg.blofinApiKey.getD ""),
                    ("ACCESS-SIGN", sg.1),
                    ("ACCESS-TIMESTAMP", sg.2.1),
                    ("ACCESS-NONCE", sg.2.2),
                    ("ACCESS-PASSPHRASE", cfg.blofinApiPassphrase.getD ""),
                    ("Content-Type", "application/json")]
    let call : ExchangeCall := ⟨url, headers, body⟩
    ⟨match exch call with
     | .error e => .error e
     | .ok resp =>
         let data := responseData resp
         if respOk resp.status then
           .ok data
         else
           .error ("BloFin order failed: " ++ toString resp.status ++ " " ++ pyStr data),
     some call⟩
  else
    ⟨.error "BloFin API credentials are not set in environment variables.", none⟩

/-! ## `send_slack_message` (src/app.py lines 32–57)

Delivery is the oracle `slack`; an `Except.error` models a raised
`requests` exception. Every outcome is swallowed: the function only
produces its `print` log. `json.dumps(extra, indent=2, default=str)` is
pretty-printed; its exact text never influences control flow, so the log
carries the compact rendering of `extra` as an abbreviation of it. -/

/-- The model of `send_slack_message(text, extra)`: returns the `print`
log lines; never the delivery outcome. -/
def send_slack_message (cfg : Config) (slack : Json → Except String HttpResp)
    (text : String) (extra : Option Json) : List String :=
  if !(credTruthy cfg.slackWebhookUrl) then
    ["Slack webhook URL not configured."]
  else
    let fullText :=
      match extra with
      | none => text
      | some e => text ++ "\n```" ++ dumps e ++ "```"
    let payload : Json := .obj (.cons "text" (.str fullText) .nil)
    match slack payload with
    | .error e => ["Error sending Slack message: " ++ e]
    | .ok resp =>
        if respOk resp.status then []
        else ["Slack returned non-200: " ++ toString resp.status ++ " " ++ resp.text]

/-! ## `tradingview_webhook` (src/app.py lines 150–235) -/

/-- What the Flask route handed back: either a `(jsonify(body), status)`
pair, or an exception escaping the handler (Flask then serves its own
500 error page, *not* one of the handler's JSON bodies). -/
inductive WebhookResult where
  | resp (status : Nat) (body : Json) : WebhookResult
  | crash (msg : String) : WebhookResult
  deriving DecidableEq

/-- `WebhookResult.resp`-ness. -/
def WebhookResult.isResp : WebhookResult → Bool
  | .resp _ _ => true
  | .crash _ => false

/-- Observable outcome of one webhook invocation: the HTTP result, whether
`place_blofin_order` was invoked, the exchange call it issued (if any),
and the accumulated `print` log of the Slack helper. -/
structure RelayOut where
  result : WebhookResult
  orderInvoked : Bool
  exchangeCall : Option ExchangeCall
  slackLog : List String

/-- `{"ok": False, "error": "Invalid or missing JSON"}`. -/
def invalidJsonBody : Json :=
  .obj (.cons "ok" (.bool false) (.cons "error" (.str "Invalid or missing JSON") .nil))

/-- `{"ok": False, "error": "Unauthorized"}`. -/
def unauthorizedBody : Json :=
  .obj (.cons "ok" (.bool false) (.cons "error" (.str "Unauthorized") .nil))

/-- `{"ok": False, "error": "Missing instId/symbol, side, or size in payload",
"received": payload}`. -/
def missingFieldsBody (payload : Json) : Json :=
  .obj (.cons "ok" (.bool false)
    (.cons "error" (.str "Missing instId/symbol, side, or size in payload")
      (.cons "received" payload .nil)))

/-- `{"ok": False, "error": str(e)}`. -/
def orderFailedBody (e : String) : Json :=
  .obj (.cons "ok" (.bool false) (.cons "error" (.str e) .nil))

/-- `{"ok": True, "blofin_response": order_response}`. -/
def successBody (d : Json) : Json :=
  .obj (.cons "ok" (.bool true) (.cons "blofin_response" d .nil))

/-- Secret validation: passes when no secret is configured, otherwise
`str(payload.get("secret", "")) == TRADINGVIEW_WEBHOOK_SECRET`. -/
def authorized (cfg : Config) (o : JsonObj) : Bool :=
  cfg.tradingviewWebhookSecret == ""
    || pyStr (dictGetD o "secret" (.str "")) == cfg.tradingviewWebhookSecret

/-- `payload.get("instId") or payload.get("symbol")` — Python `or` keeps
the first operand when truthy, else yields the second. -/
def extractedInstId (o : JsonObj) : Json :=
  let a := dictGetD o "instId" .null
  if a.truthy then a else dictGetD o "symbol" .null

/-- `not (not inst_id or not side or not size)`. -/
def fieldsPresent (o : JsonObj) : Bool :=
  (extractedInstId o).truthy && (dictGetD o "side" .null).truthy
    && (dictGetD o "size" .null).truthy

/-- The handler's call
`place_blofin_order(inst_id=inst_id, side=side, size=str(size))` —
`order_type` and `margin_mode` are left at their defaults. -/
def orderAttempt (cfg : Config) (exch : ExchangeCall → Except String HttpResp)
    (timestamp nonce : String) (o : JsonObj) : OrderOut :=
  place_blofin_order cfg exch timestamp nonce (extractedInstId o)
    (dictGetD o "side" .null) (.str (pyStr (dictGetD o "size" .null)))
    "market" "isolated"

/-- The `/webhook` POST handler. `payload` is `request.get_json(silent=True)`:
`none` when the body is not parseable JSON (or is the JSON literal `null`),
otherwise the parsed value — which need not be an object; on a non-object
the handler's `payload.get` raises `AttributeError`, which escapes to Flask
(`WebhookResult.crash`). `rawBody` is `request.data`. -/
def tradingview_webhook (cfg : Config) (exch : ExchangeCall → Except String HttpResp)
    (slack : Json → Except String HttpResp) (timestamp nonce : String)
    (payload : Option Json) (rawBody : String) : RelayOut :=
  match payload with
  | none =>
      { result := .resp 400 invalidJsonBody, orderInvoked := false, exchangeCall := none,
        slackLog := send_slack_message cfg slack
          "❌ TradingView webhook received invalid JSON"
          (some (.obj (.cons "raw_body" (.str rawBody) .nil))) }
  | some p =>
      match p with
      | .obj o =>
          if authorized cfg o then
            if fieldsPresent o then
              let log1 := send_slack_message cfg slack
                "📩 TradingView webhook received"
                (some (.obj (.cons "instId" (extractedInstId o)
                  (.cons "side" (dictGetD o "side" .null)
                    (.cons "size" (dictGetD o "size" .null)
                      (.cons "payload" p .nil))))))
              let att := orderAttempt cfg exch timestamp nonce o
              match att.result with
              | .error e =>
                  { result := .resp 500 (orderFailedBody e), orderInvoked := true,
                    exchangeCall := att.exchangeCall,
                    slackLog := log1 ++ send_slack_message cfg slack
                      "💥 Error placing BloFin order"
                      (some (.obj (.cons "error" (.str e)
                        (.cons "instId" (extractedInstId o)
                          (.cons "side" (dictGetD o "side" .null)
                            (.cons "size" (dictGetD o "size" .null) .nil)))))) }
              | .ok d =>
                  { result := .resp 200 (successBody d), orderInvoked := true,
                    exchangeCall := att.exchangeCall,
                    slackLog := log1 ++ send_slack_message cfg slack
                      "✅ BloFin order placed successfully"
                      (some (.obj (.cons "instId" (extractedInstId o)
                        (.cons "side" (dictGetD o "side" .null)
                          (.cons "size" (dictGetD o "size" .null)
                            (.cons "blofin_response" d .nil)))))) }
            else
              { result := .resp 400 (missingFieldsBody p), orderInvoked := false,
                exchangeCall := none,
                slackLog := send_slack_message cfg slack
                  "❌ TradingView webhook missing required fields"
                  (some (.obj (.cons "payload" p .nil))) }
          else
            { result := .resp 401 unauthorizedBody, orderInvoked := false,
              exchangeCall := none,
              slackLog := send_slack_message cfg slack
                "❌ Unauthorized TradingView webhook (secret mismatch)"
                (some (.obj (.cons "payload" p .nil))) }
      | _ =>
          { result := .crash "AttributeError: payload object has no attribute get",
            orderInvoked := false, exchangeCall := none, slackLog := [] }

/-! ## Concrete configurations used by witnesses and counterexamples -/

/-- All three BloFin credentials present, no inbound secret, no Slack. -/
def cfgFull : Config := ⟨some "key", some "secret", some "pass", "", none⟩

/-- All three BloFin credentials present, inbound secret `"tvsecret"` configured. -/
def cfgSecret : Config := ⟨some "key", some "secret", some "pass", "tvsecret", none⟩

/-- `BLOFIN_API_SECRET` unset. -/
def cfgMissing : Config := ⟨some "key", none, some "pass", "", none⟩

/-! ## C1 — the signing algorithm -/

/-- Modelled from claim C1's words, for comparison with `sign_request`:
uppercase the method, concatenate `path ++ METHOD ++ timestamp ++ nonce ++
bodyString` where `bodyString` is the empty string exactly when no body is
present and otherwise the body's compact JSON, HMAC-SHA256 under the
secret, hex digest, base64 of the hex string's bytes. -/
def signAsClaimC1 (secret method path : String) (body : Option JsonObj)
    (timestamp nonce : String) : String :=
  let m := upperAscii method
  let bodyString :=
    match body with
    | none => ""
    | some o => dumps (.obj o)
  signOfMessage secret (path ++ m ++ timestamp ++ nonce ++ bodyString)

/-- The signing algorithm as claim C1 must be amended: `bodyString` is the
empty string when no body is present *or the body map is empty* (the
source's `if body:` treats an empty dict like an absent one), otherwise the
body's compact JSON; the rest is unchanged. -/
def signAmendedC1 (secret method path : String) (body : Option JsonObj)
    (timestamp nonce : String) : String :=
  let m := upperAscii method
  let bodyString :=
    match body with
    | none => ""
    | some .nil => ""
    | some o => dumps (.obj o)
  signOfMessage secret (path ++ m ++ timestamp ++ nonce ++ bodyString)

set_option maxRecDepth 1000000 in
/-- C1 as stated is false at body = an (explicitly present) empty map:
the source's `if body:` skips serialization, the claim's recipe appends
`"{}"` to the canonical message, and the two signatures differ. -/
theorem sign_request_claim_cex :
    (sign_request "k" "post" "/api/v1/trade/order" (some .nil) "1" "n").1
      ≠ signAsClaimC1 "k" "post" "/api/v1/trade/order" (some .nil) "1" "n" := by
  decide

/-- C1 (amended): for every secret, method, path, optional body, timestamp
and nonce, `sign_request` produces exactly the signature of the claimed
algorithm, with `bodyString` empty when the body is absent *or an empty
map*: uppercased method, `path || METHOD || timestamp || nonce ||
bodyString` with the body as compact JSON, HMAC-SHA256 keyed by the secret,
lowercase hex digest, base64 of the hex string's bytes (not of the raw
digest). -/
theorem sign_request_algorithm (secret method path : String) (body : Option JsonObj)
    (timestamp nonce : String) :
    (sign_request secret method path body timestamp nonce).1
      = signAmendedC1 secret method path body timestamp nonce := by
  cases body with
  | none => simp [sign_request, signAmendedC1, canonicalMessage, String.append_empty]
  | some o =>
    cases o with
    | nil => simp [sign_request, signAmendedC1, canonicalMessage, Json.truthy,
                   String.append_empty]
    | cons k v tl => rfl

/-! ## C2 — body serialization vs. insertion order -/

/-- The body's contribution to the prehash string in `sign_request`:
empty for an absent or falsy (empty) body, else its compact JSON. -/
def signBodyString : Option JsonObj → String
  | some o => if Json.truthy (.obj o) then dumps (.obj o) else ""
  | none => ""

/-- `canonicalMessage` factors through `signBodyString`. -/
theorem canonicalMessage_factor (method path : String) (body : Option JsonObj)
    (ts nonce : String) :
    canonicalMessage method path body ts nonce
      = path ++ upperAscii method ++ ts ++ nonce ++ signBodyString body := by
  cases body with
  | none => simp [canonicalMessage, signBodyString, String.append_empty]
  | some o =>
    cases o with
    | nil => simp [canonicalMessage, signBodyString, Json.truthy, String.append_empty]
    | cons k v tl => rfl

set_option maxRecDepth 1000000 in
/-- C2 is false: two bodies holding the same key-value pairs in different
insertion orders serialize in their own orders (`json.dumps` is not passed
`sort_keys`), the canonical messages differ, and the signatures differ. -/
theorem sign_request_order_cex :
    (JsonObj.toList (.cons "a" (.str "1") (.cons "b" (.str "2") .nil))).Perm
        (JsonObj.toList (.cons "b" (.str "2") (.cons "a" (.str "1") .nil))) ∧
    (JsonObj.cons "a" (.str "1") (.cons "b" (.str "2") .nil))
        ≠ (JsonObj.cons "b" (.str "2") (.cons "a" (.str "1") .nil)) ∧
    (sign_request "k" "POST" "/api/v1/trade/order"
        (some (.cons "a" (.str "1") (.cons "b" (.str "2") .nil))) "1" "n").1
      ≠ (sign_request "k" "POST" "/api/v1/trade/order"
        (some (.cons "b" (.str "2") (.cons "a" (.str "1") .nil))) "1" "n").1 := by
  exact ⟨List.Perm.swap _ _ _, by decide, by decide⟩

/-- C2 (amended): the signature depends on the body only through its
serialized body string — bodies with identical serialization (in
particular, the same pairs in the same insertion order) sign identically;
the serializer keeps insertion order, so equal key sets in different orders
can serialize differently and then sign differently (see the
counterexample). -/
theorem sign_request_serialization_order (secret method path ts nonce : String)
    (b1 b2 : Option JsonObj) (h : signBodyString b1 = signBodyString b2) :
    (sign_request secret method path b1 ts nonce).1
      = (sign_request secret method path b2 ts nonce).1 := by
  simp only [sign_request, canonicalMessage_factor, h]

/-- Witness for the amended C2 at a concrete pair of bodies with equal
serialization (`none` and the empty map both contribute nothing). -/
theorem sign_request_serialization_order_witness :
    signBodyString none = signBodyString (some .nil) ∧
    (sign_request "k" "POST" "/api/v1/trade/order" none "1" "n").1
      = (sign_request "k" "POST" "/api/v1/trade/order" (some .nil) "1" "n").1 :=
  ⟨rfl, sign_request_serialization_order "k" "POST" "/api/v1/trade/order" "1" "n"
    none (some .nil) rfl⟩

/-! ## C3 — response classification in `place_blofin_order` -/

/-- C3 as stated is false: the source's success predicate is `requests`'
`Response.ok`, i.e. `status_code < 400`, not the 2xx range — on an HTTP 304
(not followed as a redirect, not a 2xx) `place_blofin_order` returns the
parsed body as a *successful* result. -/
theorem place_order_2xx_cex :
    (place_blofin_order cfgFull (fun _ => .ok ⟨304, some (.obj .nil), ""⟩) "1" "n"
        (.str "BTC-USDT-SWAP") (.str "buy") (.str "1") "market" "isolated").result
      = .ok (.obj .nil)
    ∧ ¬(200 ≤ 304 ∧ 304 < 300) :=
  ⟨rfl, by decide⟩

/-- C3 (amended): with credentials present and the exchange answering
`resp`, `place_blofin_order` returns a successful result iff
`resp.status < 400` (`requests`' `Response.ok`, which also counts 3xx as
success — not only 2xx); on `status ≥ 400` it raises with a message
carrying the status code and the response body; a body that is not
parseable JSON is carried as `{"raw_text": <raw text>}` instead of being
lost. -/
theorem place_order_classification (cfg : Config) (h : credsTruthy cfg = true)
    (resp : HttpResp) (ts nonce : String) (i s z : Json) (ot mm : String) :
    (resp.status < 400 →
       (place_blofin_order cfg (fun _ => .ok resp) ts nonce i s z ot mm).result
         = .ok (responseData resp)) ∧
    (400 ≤ resp.status →
       (place_blofin_order cfg (fun _ => .ok resp) ts nonce i s z ot mm).result
         = .error ("BloFin order failed: " ++ toString resp.status ++ " "
             ++ pyStr (responseData resp))) ∧
    (resp.jsonBody = none →
       responseData resp = .obj (.cons "raw_text" (.str resp.text) .nil)) := by
  refine ⟨?_, ?_, ?_⟩
  · intro hlt
    simp [place_blofin_order, h, respOk, hlt]
  · intro hge
    simp [place_blofin_order, h, respOk, Nat.not_lt.mpr hge]
  · intro hn
    simp [responseData, hn]

/-- Witness for the amended C3: a stubbed exchange answering HTTP 503 with
an unparseable body makes the order fail with the status and the
`raw_text`-marked body in the message. -/
theorem place_order_classification_witness :
    credsTruthy cfgFull = true ∧ 400 ≤ 503 ∧
    (place_blofin_order cfgFull (fun _ => .ok ⟨503, none, "upstream error"⟩) "1" "n"
        (.str "BTC-USDT-SWAP") (.str "buy") (.str "1") "market" "isolated").result
      = .error ("BloFin order failed: " ++ toString 503 ++ " "
          ++ pyStr (responseData ⟨503, none, "upstream error"⟩)) :=
  ⟨by decide, by decide,
   (place_order_classification cfgFull (by decide) ⟨503, none, "upstream error"⟩
      "1" "n" (.str "BTC-USDT-SWAP") (.str "buy") (.str "1") "market"
      "isolated").2.1 (by decide)⟩

/-! ## C6 — credential check before any network activity -/

/-- C6: when any of the API key, secret, or passphrase is unset or empty,
`place_blofin_order` fails with the configuration error and no HTTP call to
the exchange is recorded; when all three are present and non-empty the HTTP
call is issued. -/
theorem place_order_credentials (cfg : Config)
    (exch : ExchangeCall → Except String HttpResp) (ts nonce : String)
    (i s z : Json) (ot mm : String) :
    (credsTruthy cfg = false →
       (place_blofin_order cfg exch ts nonce i s z ot mm).result
         = .error "BloFin API credentials are not set in environment variables." ∧
       (place_blofin_order cfg exch ts nonce i s z ot mm).exchangeCall = none) ∧
    (credsTruthy cfg = true →
       (place_blofin_order cfg exch ts nonce i s z ot mm).exchangeCall.isSome = true) := by
  constructor
  · intro h
    unfold place_blofin_order
    rw [if_neg (by simp [h])]
    exact ⟨rfl, rfl⟩
  · intro h
    unfold place_blofin_order
    rw [if_pos h]
    rfl

/-- Witness for C6: with `BLOFIN_API_SECRET` unset the order raises the
configuration error and records no exchange call; with all credentials
present the call is issued. -/
theorem place_order_credentials_witness :
    credsTruthy cfgMissing = false ∧ credsTruthy cfgFull = true ∧
    (place_blofin_order cfgMissing (fun _ => .error "net down") "1" "n"
        (.str "X") (.str "buy") (.str "1") "market" "isolated").result
      = .error "BloFin API credentials are not set in environment variables." ∧
    (place_blofin_order cfgFull (fun _ => .error "net down") "1" "n"
        (.str "X") (.str "buy") (.str "1") "market" "isolated").exchangeCall.isSome
      = true :=
  ⟨by decide, by decide,
   ((place_order_credentials cfgMissing (fun _ => .error "net down") "1" "n"
       (.str "X") (.str "buy") (.str "1") "market" "isolated").1 (by decide)).1,
   (place_order_credentials cfgFull (fun _ => .error "net down") "1" "n"
       (.str "X") (.str "buy") (.str "1") "market" "isolated").2 (by decide)⟩

/-! ## C7 — the exact shape of the order body -/

/-- C7: whenever `place_blofin_order` issues its HTTP call, the JSON body
contains exactly the keys `instId`, `marginMode`, `side`, `orderType`,
`size` — in that order, matching the exchange schema verbatim — with `size`
coerced to a string via `str(size)`; there is no `price` key (the function
offers no way to provide a price, so one is never present). -/
theorem place_order_body_exact (cfg : Config)
    (exch : ExchangeCall → Except String HttpResp) (ts nonce : String)
    (i s z : Json) (ot mm : String) (h : credsTruthy cfg = true) :
    ∃ c : ExchangeCall,
      (place_blofin_order cfg exch ts nonce i s z ot mm).exchangeCall = some c ∧
      c.body = orderBody i s z ot mm ∧
      c.body.keys = ["instId", "marginMode", "side", "orderType", "size"] ∧
      c.body.get? "instId" = some i ∧
      c.body.get? "marginMode" = some (.str mm) ∧
      c.body.get? "side" = some s ∧
      c.body.get? "orderType" = some (.str ot) ∧
      c.body.get? "size" = some (.str (pyStr z)) ∧
      c.body.get? "price" = none := by
  unfold place_blofin_order
  rw [if_pos h]
  exact ⟨_, rfl, rfl, rfl, rfl, rfl, rfl, rfl, rfl, rfl⟩

/-- Witness for C7 at a concrete configuration and instruction. -/
theorem place_order_body_exact_witness :
    credsTruthy cfgFull = true ∧
    ∃ c : ExchangeCall,
      (place_blofin_order cfgFull (fun _ => .error "net down") "1" "n"
          (.str "BTC-USDT-SWAP") (.str "buy") (.num 2) "market" "isolated").exchangeCall
        = some c ∧
      c.body = orderBody (.str "BTC-USDT-SWAP") (.str "buy") (.num 2) "market" "isolated" ∧
      c.body.keys = ["instId", "marginMode", "side", "orderType", "size"] ∧
      c.body.get? "instId" = some (.str "BTC-USDT-SWAP") ∧
      c.body.get? "marginMode" = some (.str "isolated") ∧
      c.body.get? "side" = some (.str "buy") ∧
      c.body.get? "orderType" = some (.str "market") ∧
      c.body.get? "size" = some (.str (pyStr (.num 2))) ∧
      c.body.get? "price" = none :=
  ⟨by decide,
   place_order_body_exact cfgFull (fun _ => .error "net down") "1" "n"
     (.str "BTC-USDT-SWAP") (.str "buy") (.num 2) "market" "isolated" (by decide)⟩

/-! ## C4 — the outcome map of the webhook handler -/

/-- C4 as stated is false: it maps *every* request to one of five fixed
`(status, body)` pairs, but a body that parses to non-object JSON (here the
number `5` — `request.get_json` accepts any top-level JSON value) makes
`payload.get` raise `AttributeError`, which escapes the handler; Flask then
serves its own 500 error page, which is none of the five pairs. -/
theorem webhook_outcome_cex :
    ((tradingview_webhook cfgFull (fun _ => .error "net down")
        (fun _ => .error "net down") "1" "n" (some (.num 5)) "5").result).isResp
      = false ∧
    (tradingview_webhook cfgFull (fun _ => .error "net down")
        (fun _ => .error "net down") "1" "n" (some (.num 5)) "5").result
      = .crash "AttributeError: payload object has no attribute get" :=
  ⟨rfl, rfl⟩

/-- C4 (amended): for every request whose body is missing/unparseable
(`payload = none`) or parses to a JSON object, the terminal outcome maps to
the fixed pairs: 400 invalid-JSON, 401 unauthorized on secret mismatch,
400 missing-fields (echoing the payload), 500 with the exception message
when order submission fails, 200 with the exchange response on success.
(A non-object JSON body instead crashes the handler — see the
counterexample.) -/
theorem webhook_outcome_map (cfg : Config)
    (exch : ExchangeCall → Except String HttpResp)
    (slack : Json → Except String HttpResp) (ts nonce : String)
    (payload : Option Json) (raw : String) :
    (payload = none →
       (tradingview_webhook cfg exch slack ts nonce payload raw).result
         = .resp 400 invalidJsonBody) ∧
    (∀ o : JsonObj, payload = some (.obj o) →
      (authorized cfg o = false →
         (tradingview_webhook cfg exch slack ts nonce payload raw).result
           = .resp 401 unauthorizedBody) ∧
      (authorized cfg o = true → fieldsPresent o = false →
         (tradingview_webhook cfg exch slack ts nonce payload raw).result
           = .resp 400 (missingFieldsBody (.obj o))) ∧
      (authorized cfg o = true → fieldsPresent o = true →
        (∀ e, (orderAttempt cfg exch ts nonce o).result = .error e →
           (tradingview_webhook cfg exch slack ts nonce payload raw).result
             = .resp 500 (orderFailedBody e)) ∧
        (∀ d, (orderAttempt cfg exch ts nonce o).result = .ok d →
           (tradingview_webhook cfg exch slack ts nonce payload raw).result
             = .resp 200 (successBody d)))) := by
  constructor
  · rintro rfl
    rfl
  · rintro o rfl
    refine ⟨?_, ?_, ?_⟩
    · intro ha
      simp [tradingview_webhook, ha]
    · intro ha hf
      simp [tradingview_webhook, ha, hf]
    · intro ha hf
      constructor
      · intro e he
        simp [tradingview_webhook, ha, hf, he]
      · intro d hd
        simp [tradingview_webhook, ha, hf, hd]

/-- Witness for the amended C4: a configured secret and a mismatching
payload secret yield exactly 401 Unauthorized. -/
theorem webhook_outcome_map_witness :
    authorized cfgSecret (.cons "secret" (.str "wrong") .nil) = false ∧
    (tradingview_webhook cfgSecret (fun _ => .error "net down")
        (fun _ => .error "net down") "1" "n"
        (some (.obj (.cons "secret" (.str "wrong") .nil))) "x").result
      = .resp 401 unauthorizedBody :=
  ⟨by decide,
   ((webhook_outcome_map cfgSecret (fun _ => .error "net down")
       (fun _ => .error "net down") "1" "n"
       (some (.obj (.cons "secret" (.str "wrong") .nil))) "x").2
     (.cons "secret" (.str "wrong") .nil) rfl).1 (by decide)⟩

/-! ## C5 — no order submission on pre-submission failures -/

/-- C5: whenever the handler terminates with the invalid-JSON, unauthorized,
or missing-fields outcome, `place_blofin_order` was never invoked. -/
theorem webhook_no_order_on_failure (cfg : Config)
    (exch : ExchangeCall → Except String HttpResp)
    (slack : Json → Except String HttpResp) (ts nonce : String)
    (payload : Option Json) (raw : String)
    (h : (tradingview_webhook cfg exch slack ts nonce payload raw).result
           = .resp 400 invalidJsonBody
       ∨ (tradingview_webhook cfg exch slack ts nonce payload raw).result
           = .resp 401 unauthorizedBody
       ∨ ∃ p, (tradingview_webhook cfg exch slack ts nonce payload raw).result
           = .resp 400 (missingFieldsBody p)) :
    (tradingview_webhook cfg exch slack ts nonce payload raw).orderInvoked = false := by
  cases payload with
  | none => rfl
  | some p =>
    cases p with
    | null => rfl
    | bool b => rfl
    | num n => rfl
    | str s => rfl
    | arr a => rfl
    | obj o =>
      by_cases ha : authorized cfg o = true
      · by_cases hf : fieldsPresent o = true
        · exfalso
          simp only [tradingview_webhook, ha, hf, if_true] at h
          cases hr : (orderAttempt cfg exch ts nonce o).result with
          | error e =>
            rw [hr] at h
            simp [invalidJsonBody, unauthorizedBody, missingFieldsBody,
                  orderFailedBody] at h
          | ok d =>
            rw [hr] at h
            simp [invalidJsonBody, unauthorizedBody, missingFieldsBody,
                  successBody] at h
        · rw [Bool.not_eq_true] at hf
          simp [tradingview_webhook, ha, hf]
      · rw [Bool.not_eq_true] at ha
        simp [tradingview_webhook, ha]

/-- Witness for C5: a payload missing every instrument field ends in the
400 missing-fields outcome and no order invocation. -/
theorem webhook_no_order_on_failure_witness :
    (tradingview_webhook cfgFull (fun _ => .error "net down")
        (fun _ => .error "net down") "1" "n"
        (some (.obj (.cons "side" (.str "buy") .nil))) "x").result
      = .resp 400 (missingFieldsBody (.obj (.cons "side" (.str "buy") .nil))) ∧
    (tradingview_webhook cfgFull (fun _ => .error "net down")
        (fun _ => .error "net down") "1" "n"
        (some (.obj (.cons "side" (.str "buy") .nil))) "x").orderInvoked = false :=
  ⟨rfl,
   webhook_no_order_on_failure cfgFull (fun _ => .error "net down")
     (fun _ => .error "net down") "1" "n"
     (some (.obj (.cons "side" (.str "buy") .nil))) "x"
     (.inr (.inr ⟨.obj (.cons "side" (.str "buy") .nil), rfl⟩))⟩

/-! ## C8 — Slack delivery never influences the HTTP outcome -/

/-- C8: the handler's HTTP result is identical under any two Slack delivery
behaviours — notification failures are swallowed inside
`send_slack_message` and never alter the relay's own outcome. -/
theorem webhook_slack_noninterference (cfg : Config)
    (exch : ExchangeCall → Except String HttpResp) (ts nonce : String)
    (payload : Option Json) (raw : String)
    (slack1 slack2 : Json → Except String HttpResp) :
    (tradingview_webhook cfg exch slack1 ts nonce payload raw).result
      = (tradingview_webhook cfg exch slack2 ts nonce payload raw).result := by
  cases payload with
  | none => rfl
  | some p =>
    cases p with
    | null => rfl
    | bool b => rfl
    | num n => rfl
    | str s => rfl
    | arr a => rfl
    | obj o =>
      by_cases ha : authorized cfg o = true
      · by_cases hf : fieldsPresent o = true
        · simp only [tradingview_webhook, ha, hf, if_true]
          cases hr : (orderAttempt cfg exch ts nonce o).result with
          | error e => rfl
          | ok d => rfl
        · rw [Bool.not_eq_true] at hf
          simp [tradingview_webhook, ha, hf]
      · rw [Bool.not_eq_true] at ha
        simp [tradingview_webhook, ha]

/-! ## C9 — truthiness-based field validation -/

/-- C9 as stated is false without an authorization precondition: a payload
carrying `size: 0` (falsy) but also a mismatching `secret` is rejected with
401 Unauthorized, not with the 400 missing-fields outcome the claim
promises for every request carrying a falsy required field. -/
theorem webhook_truthiness_cex :
    Json.truthy (dictGetD
        (.cons "secret" (.str "nope") (.cons "instId" (.str "BTC-USDT-SWAP")
          (.cons "side" (.str "buy") (.cons "size" (.num 0) .nil))))
        "size" .null) = false ∧
    (tradingview_webhook cfgSecret (fun _ => .error "net down")
        (fun _ => .error "net down") "1" "n"
        (some (.obj (.cons "secret" (.str "nope") (.cons "instId" (.str "BTC-USDT-SWAP")
          (.cons "side" (.str "buy") (.cons "size" (.num 0) .nil)))))) "x").result
      = .resp 401 unauthorizedBody ∧
    (tradingview_webhook cfgSecret (fun _ => .error "net down")
        (fun _ => .error "net down") "1" "n"
        (some (.obj (.cons "secret" (.str "nope") (.cons "instId" (.str "BTC-USDT-SWAP")
          (.cons "side" (.str "buy") (.cons "size" (.num 0) .nil)))))) "x").result
      ≠ .resp 400 (missingFieldsBody
          (.obj (.cons "secret" (.str "nope") (.cons "instId" (.str "BTC-USDT-SWAP")
            (.cons "side" (.str "buy") (.cons "size" (.num 0) .nil)))))) :=
  ⟨rfl, rfl, by decide⟩

/-- C9 (amended): for a payload that parses to a JSON object *and passes
the secret check*, presence of the required fields is decided by Python
truthiness, not key existence: a falsy `side`, `size`, or instrument value
(numeric 0, empty string, `false`, `null` are all falsy) triggers exactly
the 400 missing-fields outcome, and a falsy `instId` falls back to the
`symbol` field. -/
theorem webhook_truthiness (cfg : Config)
    (exch : ExchangeCall → Except String HttpResp)
    (slack : Json → Except String HttpResp) (ts nonce raw : String)
    (o : JsonObj) (ha : authorized cfg o = true) :
    (fieldsPresent o = false →
       (tradingview_webhook cfg exch slack ts nonce (some (.obj o)) raw).result
         = .resp 400 (missingFieldsBody (.obj o))) ∧
    ((dictGetD o "side" Json.null).truthy = false → fieldsPresent o = false) ∧
    ((dictGetD o "size" Json.null).truthy = false → fieldsPresent o = false) ∧
    ((extractedInstId o).truthy = false → fieldsPresent o = false) ∧
    ((dictGetD o "instId" Json.null).truthy = false →
       extractedInstId o = dictGetD o "symbol" Json.null) ∧
    (Json.truthy (.num 0) = false ∧ Json.truthy (.str "") = false ∧
     Json.truthy (.bool false) = false ∧ Json.truthy .null = false) := by
  refine ⟨?_, ?_, ?_, ?_, ?_, by decide⟩
  · intro hf
    simp [tradingview_webhook, ha, hf]
  · intro h
    simp [fieldsPresent, h]
  · intro h
    simp [fieldsPresent, h]
  · intro h
    simp [fieldsPresent, h]
  · intro h
    simp [extractedInstId, h]

/-- Witness for the amended C9: no secret configured (so authorization
passes), `size` present but `0` — the request is rejected with the 400
missing-fields outcome. -/
theorem webhook_truthiness_witness :
    authorized cfgFull (.cons "instId" (.str "BTC-USDT-SWAP")
        (.cons "side" (.str "buy") (.cons "size" (.num 0) .nil))) = true ∧
    fieldsPresent (.cons "instId" (.str "BTC-USDT-SWAP")
        (.cons "side" (.str "buy") (.cons "size" (.num 0) .nil))) = false ∧
    (tradingview_webhook cfgFull (fun _ => .error "net down")
        (fun _ => .error "net down") "1" "n"
        (some (.obj (.cons "instId" (.str "BTC-USDT-SWAP")
          (.cons "side" (.str "buy") (.cons "size" (.num 0) .nil))))) "x").result
      = .resp 400 (missingFieldsBody (.obj (.cons "instId" (.str "BTC-USDT-SWAP")
          (.cons "side" (.str "buy") (.cons "size" (.num 0) .nil))))) :=
  ⟨by decide, by decide,
   (webhook_truthiness cfgFull (fun _ => .error "net down")
      (fun _ => .error "net down") "1" "n" "x"
      (.cons "instId" (.str "BTC-USDT-SWAP")
        (.cons "side" (.str "buy") (.cons "size" (.num 0) .nil)))
      (by decide)).1 (by decide)⟩

/-! ## C10 — webhook orders always use the defaults -/

/-- A property holding of the value under `some`, vacuously of `none`. -/
def optionAll {α : Type} (p : α → Prop) : Option α → Prop
  | none => True
  | some a => p a

/-- C10: whatever the inbound payload contains, any exchange call the
webhook handler issues has `orderType = "market"`, `marginMode =
"isolated"`, and no `price` field — the handler extracts only
instrument/side/size and calls `place_blofin_order` with its defaults, so
payload fields named `orderType`, `marginMode` or `price` are ignored. -/
theorem webhook_order_defaults (cfg : Config)
    (exch : ExchangeCall → Except String HttpResp)
    (slack : Json → Except String HttpResp) (ts nonce : String)
    (payload : Option Json) (raw : String) :
    optionAll (fun c : ExchangeCall =>
        c.body.get? "orderType" = some (.str "market") ∧
        c.body.get? "marginMode" = some (.str "isolated") ∧
        c.body.get? "price" = none)
      (tradingview_webhook cfg exch slack ts nonce payload raw).exchangeCall := by
  cases payload with
  | none => trivial
  | some p =>
    cases p with
    | null => trivial
    | bool b => trivial
    | num n => trivial
    | str s => trivial
    | arr a => trivial
    | obj o =>
      have haux : optionAll (fun c : ExchangeCall =>
          c.body.get? "orderType" = some (.str "market") ∧
          c.body.get? "marginMode" = some (.str "isolated") ∧
          c.body.get? "price" = none)
        (orderAttempt cfg exch ts nonce o).exchangeCall := by
        unfold orderAttempt place_blofin_order
        by_cases hc : credsTruthy cfg = true
        · rw [if_pos hc]
          exact ⟨rfl, rfl, rfl⟩
        · rw [if_neg hc]
          trivial
      by_cases ha : authorized cfg o = true
      · by_cases hf : fieldsPresent o = true
        · simp only [tradingview_webhook, ha, hf, if_true]
          cases hr : (orderAttempt cfg exch ts nonce o).result with
          | error e => exact haux
          | ok d => exact haux
        · rw [Bool.not_eq_true] at hf
          simp [tradingview_webhook, ha, hf, optionAll]
      · rw [Bool.not_eq_true] at ha
        simp [tradingview_webhook, ha, optionAll]
